import Mathlib

/-!
Verification of the yearly real-estate simulation engine (`src/model.js`).

The JavaScript engine works on IEEE doubles; we embed it over `ℚ` (exact
rational arithmetic), the standard idealisation for this kind of financial
recurrence.  The two transcendental KPI formulas (`Math.pow` with a
fractional exponent in `roeAnnualized`, `altEndValue`) are embedded over `ℝ`
with `Real.rpow`; everything else is computable.

JS absent/`undefined` fields are modelled with `Option`; the destructuring
defaults of `simulateScenario` are applied by `unpack`.  The calendar clock
(`new Date().getFullYear()`, the default for `startYear`) is passed as an
explicit `clock` argument.
-/

namespace Model

/-- JS literal `1e-6` (threshold for an outstanding loan balance). -/
def eps6 : ℚ := 1 / 1000000

/-- JS literal `1e-9` (near-zero guard for rates and the payout factor). -/
def eps9 : ℚ := 1 / 1000000000

/-- `pmt(rate, nper, pv)` from model.js lines 8-16: Excel-like annuity
payment.  `Math.pow(1 + rate, -nper)` becomes a `zpow` on `ℚ`. -/
def pmt (rate : ℚ) (nper : ℤ) (pv : ℚ) : ℚ :=
  if |rate| < eps9 then
    if 0 < nper then pv / (nper : ℚ) else 0
  else
    (pv * rate) / (1 - (1 + rate) ^ (-nper))

/-- `getAfaRate(afaModel, year, lifetimeYears)` from model.js lines 21-47.
The string switch is kept verbatim; the default branch returns 2%. -/
def getAfaRate (afaModel : String) (year : ℕ) (lifetimeYears : ℤ) : ℚ :=
  if afaModel = "Linear 2%" ∨ afaModel = "Linear 2% p.a." then
    if year ≤ 50 then 2/100 else 0
  else if afaModel = "Linear 3%" ∨ afaModel = "Linear 3% p.a." then
    if year ≤ 33 then 3/100 else 0
  else if afaModel = "Degressive 5% + Linear 2%" then
    if year ≤ 6 then 5/100 else 2/100
  else if afaModel = "Degressive 5% + Linear 3%" then
    if year ≤ 6 then 5/100 else 3/100
  else if afaModel = "Linear 1/Restnutzungsdauer" ∨ afaModel = "Linear 1 / remaining life" then
    if (year : ℤ) ≤ lifetimeYears then 1 / (lifetimeYears : ℚ) else 0
  else
    2/100

/-- The raw argument object of `simulateScenario`: every field may be absent
(JS `undefined`).  `saleYear`'s default is `null`, which the engine treats
exactly like an absent field, so a single `Option` layer suffices. -/
structure SimulationInputs where
  startYear : Option ℤ := none
  buildingValue : Option ℚ := none
  landValue : Option ℚ := none
  grEStRate : Option ℚ := none
  maklerRate : Option ℚ := none
  grundbuchRate : Option ℚ := none
  notaryRate : Option ℚ := none
  companyCost : Option ℚ := none
  fittingUp : Option ℚ := none
  initialRepairs : Option ℚ := none
  buildingLossRate : Option ℚ := none
  landGrowthRate : Option ℚ := none
  constructionCostGrowth : Option ℚ := none
  annualMaintenance : Option ℚ := none
  maintenanceGrowth : Option ℚ := none
  sqm : Option ℚ := none
  monthlyRent : Option ℚ := none
  vacancyRate : Option ℚ := none
  rentGrowth : Option ℚ := none
  incomeTaxRate : Option ℚ := none
  equity : Option ℚ := none
  loanTermYears1 : Option ℤ := none
  fixRateYears1 : Option ℤ := none
  interestRate1 : Option ℚ := none
  discountRate : Option ℚ := none
  loanTermYears2 : Option ℤ := none
  interestRate2 : Option ℚ := none
  sellingCostRate : Option ℚ := none
  saleMode : Option String := none
  saleYear : Option ℚ := none
  investmentHorizonYears : Option ℤ := none
  altReturnBeforeTax : Option ℚ := none
  altTaxRate : Option ℚ := none
  afaModel : Option String := none
  buildingLifetimeYears : Option ℤ := none
  deriving DecidableEq

/-- The destructured locals of `simulateScenario` (model.js lines 67-129),
i.e. the inputs after all defaults have been applied. -/
structure Config where
  startYear : ℤ
  buildingValue : ℚ
  landValue : ℚ
  grEStRate : ℚ
  maklerRate : ℚ
  grundbuchRate : ℚ
  notaryRate : ℚ
  companyCost : ℚ
  fittingUp : ℚ
  initialRepairs : ℚ
  buildingLossRate : ℚ
  landGrowthRate : ℚ
  constructionCostGrowth : ℚ
  annualMaintenance : ℚ
  maintenanceGrowth : ℚ
  sqm : ℚ
  monthlyRent : ℚ
  vacancyRate : ℚ
  rentGrowth : ℚ
  incomeTaxRate : ℚ
  equity : ℚ
  loanTermYears1 : ℤ
  fixRateYears1 : ℤ
  interestRate1 : ℚ
  discountRate : ℚ
  loanTermYears2 : ℤ
  interestRate2 : ℚ
  sellingCostRate : ℚ
  saleMode : String
  saleYear : Option ℚ
  investmentHorizonYears : ℤ
  altReturnBeforeTax : ℚ
  altTaxRate : ℚ
  afaModel : String
  buildingLifetimeYears : ℤ
  deriving DecidableEq

/-- `x ?? d` on an optional field: the value if present, else the default.
Extensionally identical to `Option.getD` (the non-inlined form keeps the
compiler from exploding on the 35-field unpacking below). -/
def orDefault {α : Type} (x : Option α) (d : α) : α :=
  match x with
  | some v => v
  | none => d

/-- Apply the destructuring defaults of model.js lines 67-129.  `clock` is
the value of `new Date().getFullYear()` at call time (default for
`startYear`).  Note the two field-dependent defaults taken verbatim from the
source: `interestRate2 = interestRate1` and `altTaxRate = incomeTaxRate`. -/
def unpack (clock : ℤ) (i : SimulationInputs) : Config :=
  { startYear := orDefault i.startYear clock
    buildingValue := orDefault i.buildingValue 0
    landValue := orDefault i.landValue 0
    grEStRate := orDefault i.grEStRate 0
    maklerRate := orDefault i.maklerRate 0
    grundbuchRate := orDefault i.grundbuchRate 0
    notaryRate := orDefault i.notaryRate 0
    companyCost := orDefault i.companyCost 0
    fittingUp := orDefault i.fittingUp 0
    initialRepairs := orDefault i.initialRepairs 0
    buildingLossRate := orDefault i.buildingLossRate 0
    landGrowthRate := orDefault i.landGrowthRate 0
    constructionCostGrowth := orDefault i.constructionCostGrowth 0
    annualMaintenance := orDefault i.annualMaintenance 0
    maintenanceGrowth := orDefault i.maintenanceGrowth 0
    sqm := orDefault i.sqm 0
    monthlyRent := orDefault i.monthlyRent 0
    vacancyRate := orDefault i.vacancyRate 0
    rentGrowth := orDefault i.rentGrowth 0
    incomeTaxRate := orDefault i.incomeTaxRate 0
    equity := orDefault i.equity 0
    loanTermYears1 := orDefault i.loanTermYears1 0
    fixRateYears1 := orDefault i.fixRateYears1 0
    interestRate1 := orDefault i.interestRate1 0
    discountRate := orDefault i.discountRate 0
    loanTermYears2 := orDefault i.loanTermYears2 0
    interestRate2 := orDefault i.interestRate2 (orDefault i.interestRate1 0)
    sellingCostRate := orDefault i.sellingCostRate 0
    saleMode := orDefault i.saleMode "hold"
    saleYear := i.saleYear
    investmentHorizonYears := orDefault i.investmentHorizonYears 30
    altReturnBeforeTax := orDefault i.altReturnBeforeTax 0
    altTaxRate := orDefault i.altTaxRate (orDefault i.incomeTaxRate 0)
    afaModel := orDefault i.afaModel "Linear 2%"
    buildingLifetimeYears := orDefault i.buildingLifetimeYears 50 }

/-- `const horizonYears = Math.max(1, investmentHorizonYears || 1)`
(model.js line 131); `|| 1` only matters for the value `0`. -/
def horizonOf (c : Config) : ℤ :=
  max 1 (if c.investmentHorizonYears = 0 then 1 else c.investmentHorizonYears)

/-- The derived acquisition / loan constants of model.js lines 133-184
(sections 3.2 and 3.3 and the CGT basis).  The `(x || 0)` coalescings in the
source are no-ops on already-defaulted numbers and are dropped. -/
structure Derived where
  purchasePrice : ℚ
  sideCostRate : ℚ
  sideCostsVariable : ℚ
  sideCostsTotal : ℚ
  totalInvestment : ℚ
  financingNeed : ℚ
  payoutFactor : ℚ
  loanAmount1 : ℚ
  disagio : ℚ
  buildingShare : ℚ
  afaBasis : ℚ
  purchaseCostBasis : ℚ
  r1 : ℚ
  r2 : ℚ
  n1 : ℤ
  n2 : ℤ
  annuity1 : ℚ
  deriving DecidableEq

def mkDerived (c : Config) : Derived :=
  let purchasePrice := c.buildingValue + c.landValue
  let sideCostRate := c.grEStRate + c.maklerRate + c.grundbuchRate + c.notaryRate
  let sideCostsVariable := purchasePrice * sideCostRate
  let sideCostsTotal := sideCostsVariable + c.companyCost
  let totalInvestment := purchasePrice + c.fittingUp + c.initialRepairs + sideCostsTotal
  let financingNeed := totalInvestment - c.equity
  let payoutFactor := 1 - c.discountRate
  let loanAmount1 := if eps9 < |payoutFactor| then financingNeed / payoutFactor else financingNeed
  let disagio := loanAmount1 - financingNeed
  let buildingShare := if 0 < purchasePrice then c.buildingValue / purchasePrice else 0
  let afaBasis := c.buildingValue + c.fittingUp + sideCostsVariable * buildingShare
  let purchaseCostBasis := purchasePrice + c.fittingUp + sideCostsVariable * buildingShare
  let r1 := c.interestRate1
  let r2 := c.interestRate2
  let n1 := c.loanTermYears1
  let n2 := c.loanTermYears2
  let annuity1 := if 0 < n1 then pmt r1 n1 loanAmount1 else 0
  { purchasePrice := purchasePrice
    sideCostRate := sideCostRate
    sideCostsVariable := sideCostsVariable
    sideCostsTotal := sideCostsTotal
    totalInvestment := totalInvestment
    financingNeed := financingNeed
    payoutFactor := payoutFactor
    loanAmount1 := loanAmount1
    disagio := disagio
    buildingShare := buildingShare
    afaBasis := afaBasis
    purchaseCostBasis := purchaseCostBasis
    r1 := r1
    r2 := r2
    n1 := n1
    n2 := n2
    annuity1 := annuity1 }

/-- `const withinLoan1 = year <= n1 && remainingDebt > 1e-6` (line 194). -/
abbrev withinLoan1 (d : Derived) (year : ℤ) (debt : ℚ) : Prop :=
  year ≤ d.n1 ∧ eps6 < debt

/-- `const withinLoan2 = !withinLoan1 && n2 > 0 && year <= n1 + n2 &&
remainingDebt > 1e-6` (lines 195-199). -/
abbrev withinLoan2 (d : Derived) (year : ℤ) (debt : ℚ) : Prop :=
  ¬ withinLoan1 d year debt ∧ 0 < d.n2 ∧ year ≤ d.n1 + d.n2 ∧ eps6 < debt

/-- Result of one year of the loan phase logic (model.js lines 189-224):
the three per-year figures plus the updated loan accumulators. -/
structure LoanOut where
  interestPaid : ℚ
  principalPaid : ℚ
  annualPayment : ℚ
  remainingDebt : ℚ
  cumPrincipal : ℚ
  annuity2 : ℚ
  secondLoanStarted : Bool
  deriving DecidableEq

/-- Loan phase detection and update, model.js lines 189-224. -/
def loanPhase (d : Derived) (year : ℤ) (debt cumP a2 : ℚ) (started : Bool) : LoanOut :=
  if withinLoan1 d year debt then
    let annualPayment := d.annuity1
    let interestPaid := debt * d.r1
    let principalPaid := min (annualPayment - interestPaid) debt
    { interestPaid := interestPaid
      principalPaid := principalPaid
      annualPayment := annualPayment
      remainingDebt := max (debt - principalPaid) 0
      cumPrincipal := cumP + principalPaid
      annuity2 := a2
      secondLoanStarted := started }
  else if withinLoan2 d year debt then
    let a2N := if started then a2 else pmt d.r2 d.n2 debt
    let annualPayment := a2N
    let interestPaid := debt * d.r2
    let principalPaid := min (annualPayment - interestPaid) debt
    { interestPaid := interestPaid
      principalPaid := principalPaid
      annualPayment := annualPayment
      remainingDebt := max (debt - principalPaid) 0
      cumPrincipal := cumP + principalPaid
      annuity2 := a2N
      secondLoanStarted := true }
  else
    { interestPaid := 0
      principalPaid := 0
      annualPayment := 0
      remainingDebt := debt
      cumPrincipal := cumP
      annuity2 := a2
      secondLoanStarted := started }

/-- The quantities computed inside the sale block, model.js lines 284-300.
`saleYearVal` is the (non-null) `saleYear` input, which at firing time
equals the loop's `year`. -/
structure SaleOutcome where
  saleGross : ℚ
  capitalGain : ℚ
  cgt : ℚ
  repayDebt : ℚ
  saleNetCF : ℚ
  deriving DecidableEq

def saleEvent (c : Config) (d : Derived) (saleYearVal propertyVal debt : ℚ) : SaleOutcome :=
  let saleGross := propertyVal * (1 - c.sellingCostRate)
  let capitalGain := saleGross - d.purchaseCostBasis
  let cgt := if saleYearVal ≤ 10 ∧ 0 < capitalGain then capitalGain * c.incomeTaxRate else 0
  let repayDebt := debt
  { saleGross := saleGross
    capitalGain := capitalGain
    cgt := cgt
    repayDebt := repayDebt
    saleNetCF := saleGross - repayDebt - cgt }

/-- One entry of the `years` array (model.js lines 316-334). -/
structure YearRecord where
  yearIndex : ℤ
  calendarYear : ℤ
  remainingDebt : ℚ
  interestPaid : ℚ
  principalPaid : ℚ
  grossRent : ℚ
  netRent : ℚ
  maintenance : ℚ
  depreciation : ℚ
  taxable : ℚ
  taxCash : ℚ
  cashBeforeTax : ℚ
  cashAfterTax : ℚ
  cumulativeCF : ℚ
  propertyValue : ℚ
  wealthFromCFAndLoan : ℚ
  equityPosition : ℚ
  deriving DecidableEq

/-- The mutable loop state of model.js lines 167-180 plus the `years`
array being built. -/
structure SimState where
  remainingDebt : ℚ
  cumPrincipal : ℚ
  annuity2 : ℚ
  secondLoanStarted : Bool
  landVal : ℚ
  buildingVal : ℚ
  propertyVal : ℚ
  cumulativeCF : ℚ
  saleHappened : Bool
  years : List YearRecord
  deriving DecidableEq

/-- The five values the sale block overwrites (or leaves alone). -/
structure SaleUpd where
  cashAfterTax : ℚ
  cumulativeCF : ℚ
  propertyVal : ℚ
  wealth : ℚ
  equityPos : ℚ
  debt : ℚ
  saleHappened : Bool
  deriving DecidableEq

/-- The guard of the sale block, model.js lines 278-283:
`!saleHappened && saleMode === "sell" && saleYear != null && year === saleYear`
(`saleYear != null && year === saleYear` is exactly
`saleYear = some (year : ℚ)`). -/
abbrev saleFires (c : Config) (year : ℕ) (s : SimState) : Prop :=
  s.saleHappened = false ∧ c.saleMode = "sell" ∧ c.saleYear = some ((year : ℚ))

/-- One iteration of the main loop together with the `YearRecord` it pushes. -/
structure StepOut where
  record : YearRecord
  state : SimState
  deriving DecidableEq

/-- One iteration of the main loop, model.js lines 186-335, for loop
variable `year` (1-based). -/
def simStepFull (c : Config) (d : Derived) (year : ℕ) (s : SimState) : StepOut :=
  let calendarYear := c.startYear + (year : ℤ) - 1
  let lo := loanPhase d (year : ℤ) s.remainingDebt s.cumPrincipal s.annuity2 s.secondLoanStarted
  let grossRent := c.monthlyRent * 12 * (1 + c.rentGrowth) ^ (year - 1)
  let netRent := grossRent * (1 - c.vacancyRate)
  let maintenance :=
    if year = 1 then -(c.annualMaintenance + c.initialRepairs)
    else -c.annualMaintenance * (1 + c.maintenanceGrowth) ^ (year - 1)
  let afaRate := getAfaRate c.afaModel year c.buildingLifetimeYears
  let depreciation := -d.afaBasis * afaRate
  let interestExpense := -lo.interestPaid
  let principalFlow := -lo.principalPaid
  let taxable :=
    if year = 1 ∧ eps6 < |d.disagio| then
      netRent + maintenance + interestExpense + depreciation + -d.disagio
    else
      netRent + maintenance + interestExpense + depreciation
  let taxCash := -c.incomeTaxRate * taxable
  let cashBeforeTax := netRent + maintenance + interestExpense + principalFlow
  let cashAfterTax := cashBeforeTax + taxCash
  let landVal := s.landVal * (1 + c.landGrowthRate)
  let buildingVal := s.buildingVal * (1 - c.buildingLossRate + c.constructionCostGrowth)
  let propertyVal := landVal + buildingVal
  let cumulativeCF := s.cumulativeCF + cashAfterTax
  let wealthFromCFAndLoan := cumulativeCF + lo.cumPrincipal
  let equityPosition := propertyVal + wealthFromCFAndLoan - d.totalInvestment
  let upd : SaleUpd :=
    if saleFires c year s then
      let ev := saleEvent c d ((year : ℚ)) propertyVal lo.remainingDebt
      { cashAfterTax := cashAfterTax + ev.saleNetCF
        cumulativeCF := cumulativeCF + ev.saleNetCF
        propertyVal := 0
        wealth := cumulativeCF + ev.saleNetCF + lo.cumPrincipal
        equityPos := cumulativeCF + ev.saleNetCF + lo.cumPrincipal - d.totalInvestment
        debt := 0
        saleHappened := true }
    else
      { cashAfterTax := cashAfterTax
        cumulativeCF := cumulativeCF
        propertyVal := propertyVal
        wealth := wealthFromCFAndLoan
        equityPos := equityPosition
        debt := lo.remainingDebt
        saleHappened := s.saleHappened }
  let rec0 : YearRecord :=
    { yearIndex := (year : ℤ)
      calendarYear := calendarYear
      remainingDebt := upd.debt
      interestPaid := lo.interestPaid
      principalPaid := lo.principalPaid
      grossRent := grossRent
      netRent := netRent
      maintenance := maintenance
      depreciation := depreciation
      taxable := taxable
      taxCash := taxCash
      cashBeforeTax := cashBeforeTax
      cashAfterTax := upd.cashAfterTax
      cumulativeCF := upd.cumulativeCF
      propertyValue := upd.propertyVal
      wealthFromCFAndLoan := upd.wealth
      equityPosition := upd.equityPos }
  { record := rec0
    state :=
      { remainingDebt := upd.debt
        cumPrincipal := lo.cumPrincipal
        annuity2 := lo.annuity2
        secondLoanStarted := lo.secondLoanStarted
        landVal := landVal
        buildingVal := buildingVal
        propertyVal := upd.propertyVal
        cumulativeCF := upd.cumulativeCF
        saleHappened := upd.saleHappened
        years := s.years ++ [rec0] } }

/-- The state after one loop iteration. -/
def simStep (c : Config) (d : Derived) (year : ℕ) (s : SimState) : SimState :=
  (simStepFull c d year s).state

/-- The loop state before year 1 (model.js lines 167-180). -/
def initState (c : Config) (d : Derived) : SimState :=
  { remainingDebt := d.loanAmount1
    cumPrincipal := 0
    annuity2 := 0
    secondLoanStarted := false
    landVal := c.landValue
    buildingVal := c.buildingValue + c.fittingUp
    propertyVal := c.landValue + (c.buildingValue + c.fittingUp)
    cumulativeCF := 0
    saleHappened := false
    years := [] }

/-- The loop state after `k` completed years. -/
def simTrace (c : Config) (d : Derived) : ℕ → SimState
  | 0 => initState c d
  | k + 1 => simStep c d (k + 1) (simTrace c d k)

/-- `yearsUsed` of the KPI block, model.js lines 341-344. -/
def yearsUsedOf (c : Config) : ℚ :=
  if c.saleMode = "sell" ∧ c.saleYear ≠ none then
    min (c.saleYear.getD 0) ((horizonOf c : ℤ) : ℚ)
  else ((horizonOf c : ℤ) : ℚ)

/-- All-zero year record, used only as the (unreachable, since
`horizonYears ≥ 1`) default for `years[years.length - 1]`. -/
def emptyYear : YearRecord :=
  { yearIndex := 0, calendarYear := 0, remainingDebt := 0, interestPaid := 0
    principalPaid := 0, grossRent := 0, netRent := 0, maintenance := 0
    depreciation := 0, taxable := 0, taxCash := 0, cashBeforeTax := 0
    cashAfterTax := 0, cumulativeCF := 0, propertyValue := 0
    wealthFromCFAndLoan := 0, equityPosition := 0 }

/-- The `meta` object of the returned result (model.js lines 366-377). -/
structure Meta where
  startYear : ℤ
  horizonYears : ℤ
  saleMode : String
  saleYear : Option ℚ
  totalInvestment : ℚ
  financingNeed : ℚ
  loanAmount1 : ℚ
  disagio : ℚ
  afaBasis : ℚ
  purchaseCostBasis : ℚ
  deriving DecidableEq

/-- The rational-valued part of the `kpis` object (model.js lines 379-391).
The three `Math.pow`-based entries (`roeAnnualized`, `altEndValue`,
`altProfit`) involve real exponentiation and are modelled by the separate
real-valued functions below. -/
structure Kpis where
  equityInvested : ℚ
  equityPositionEnd : ℚ
  totalProfit : ℚ
  roeTotal : ℚ
  equityMultiple : ℚ
  propertyValueEnd : ℚ
  remainingDebtEnd : ℚ
  cumulativeCFEnd : ℚ
  deriving DecidableEq

structure SimulationResult where
  meta : Meta
  years : List YearRecord
  kpis : Kpis
  deriving DecidableEq

/-- `const last = years[years.length - 1]` (model.js line 337); total via a
default that is never reached because `horizonYears ≥ 1`. -/
def lastYearOf (c : Config) : YearRecord :=
  (simTrace c (mkDerived c) (horizonOf c).toNat).years.getLastD emptyYear

/-- `roeTotal = equityInvested > 0 ? totalProfit / equityInvested : 0`
(model.js line 350), with `totalProfit = last.equityPosition`. -/
def roeTotalOf (c : Config) : ℚ :=
  if 0 < c.equity then (lastYearOf c).equityPosition / c.equity else 0

/-- `equityMultiple` (model.js lines 356-357). -/
def equityMultipleOf (c : Config) : ℚ :=
  if 0 < c.equity then (c.equity + (lastYearOf c).equityPosition) / c.equity else 0

/-- The engine body after input unpacking: model.js lines 131-392. -/
def simRun (c : Config) : SimulationResult :=
  let d := mkDerived c
  let horizonYears := horizonOf c
  let final := simTrace c d horizonYears.toNat
  let years := final.years
  let last := years.getLastD emptyYear
  { meta :=
      { startYear := c.startYear
        horizonYears := horizonYears
        saleMode := c.saleMode
        saleYear := c.saleYear
        totalInvestment := d.totalInvestment
        financingNeed := d.financingNeed
        loanAmount1 := d.loanAmount1
        disagio := d.disagio
        afaBasis := d.afaBasis
        purchaseCostBasis := d.purchaseCostBasis }
    years := years
    kpis :=
      { equityInvested := c.equity
        equityPositionEnd := last.equityPosition
        totalProfit := last.equityPosition
        roeTotal := roeTotalOf c
        equityMultiple := equityMultipleOf c
        propertyValueEnd := last.propertyValue
        remainingDebtEnd := last.remainingDebt
        cumulativeCFEnd := last.cumulativeCF } }

/-- `simulateScenario(inputs)`: the full engine.  `clock` is the calendar
year an implicit `new Date()` would report. -/
def simulateScenario (clock : ℤ) (i : SimulationInputs) : SimulationResult :=
  simRun (unpack clock i)

/-- `roeAnnualized` (model.js lines 351-354): real-valued because of the
fractional exponent in `Math.pow(1 + roeTotal, 1 / yearsUsed)`. -/
noncomputable def roeAnnualizedOf (c : Config) : ℝ :=
  if 0 < c.equity ∧ 0 < yearsUsedOf c then
    ((1 : ℝ) + (roeTotalOf c : ℝ)) ^ ((1 : ℝ) / ((yearsUsedOf c : ℚ) : ℝ)) - 1
  else 0

noncomputable def roeAnnualized (clock : ℤ) (i : SimulationInputs) : ℝ :=
  roeAnnualizedOf (unpack clock i)

/-- `altEndValue` (model.js lines 360-362): the alternative-investment
benchmark, compounded over `yearsUsed` (possibly non-integer) years. -/
noncomputable def altEndValueOf (c : Config) : ℝ :=
  let altAfterTaxReturn := c.altReturnBeforeTax * (1 - c.altTaxRate)
  (c.equity : ℝ) * ((1 : ℝ) + (altAfterTaxReturn : ℝ)) ^ (((yearsUsedOf c : ℚ)) : ℝ)

noncomputable def altEndValue (clock : ℤ) (i : SimulationInputs) : ℝ :=
  altEndValueOf (unpack clock i)

/-- `altProfit = altEndValue - equityInvested` (model.js line 363). -/
noncomputable def altProfitOf (c : Config) : ℝ :=
  altEndValueOf c - (c.equity : ℝ)

noncomputable def altProfit (clock : ℤ) (i : SimulationInputs) : ℝ :=
  altProfitOf (unpack clock i)

/-- An input object with every field present, holding the values the
destructuring defaults of model.js lines 67-129 would produce for `i`:
most numbers default to `0`, but `investmentHorizonYears` to `30`,
`buildingLifetimeYears` to `50`, `startYear` to the clock year,
`interestRate2` to the (defaulted) `interestRate1`, `altTaxRate` to the
(defaulted) `incomeTaxRate`, `afaModel` to `"Linear 2%"`, `saleMode` to
`"hold"` and `saleYear` to `null` (`none`). -/
def fillDefaults (clock : ℤ) (i : SimulationInputs) : SimulationInputs :=
  { startYear := some (orDefault i.startYear clock)
    buildingValue := some (orDefault i.buildingValue 0)
    landValue := some (orDefault i.landValue 0)
    grEStRate := some (orDefault i.grEStRate 0)
    maklerRate := some (orDefault i.maklerRate 0)
    grundbuchRate := some (orDefault i.grundbuchRate 0)
    notaryRate := some (orDefault i.notaryRate 0)
    companyCost := some (orDefault i.companyCost 0)
    fittingUp := some (orDefault i.fittingUp 0)
    initialRepairs := some (orDefault i.initialRepairs 0)
    buildingLossRate := some (orDefault i.buildingLossRate 0)
    landGrowthRate := some (orDefault i.landGrowthRate 0)
    constructionCostGrowth := some (orDefault i.constructionCostGrowth 0)
    annualMaintenance := some (orDefault i.annualMaintenance 0)
    maintenanceGrowth := some (orDefault i.maintenanceGrowth 0)
    sqm := some (orDefault i.sqm 0)
    monthlyRent := some (orDefault i.monthlyRent 0)
    vacancyRate := some (orDefault i.vacancyRate 0)
    rentGrowth := some (orDefault i.rentGrowth 0)
    incomeTaxRate := some (orDefault i.incomeTaxRate 0)
    equity := some (orDefault i.equity 0)
    loanTermYears1 := some (orDefault i.loanTermYears1 0)
    fixRateYears1 := some (orDefault i.fixRateYears1 0)
    interestRate1 := some (orDefault i.interestRate1 0)
    discountRate := some (orDefault i.discountRate 0)
    loanTermYears2 := some (orDefault i.loanTermYears2 0)
    interestRate2 := some (orDefault i.interestRate2 (orDefault i.interestRate1 0))
    sellingCostRate := some (orDefault i.sellingCostRate 0)
    saleMode := some (orDefault i.saleMode "hold")
    saleYear := i.saleYear
    investmentHorizonYears := some (orDefault i.investmentHorizonYears 30)
    altReturnBeforeTax := some (orDefault i.altReturnBeforeTax 0)
    altTaxRate := some (orDefault i.altTaxRate (orDefault i.incomeTaxRate 0))
    afaModel := some (orDefault i.afaModel "Linear 2%")
    buildingLifetimeYears := some (orDefault i.buildingLifetimeYears 50) }

/-! ### Concrete inputs used by the theorems below -/

/-- The worked scenario of the spec (section 8, bullet 6). -/
def scenarioInputs : SimulationInputs :=
  { buildingValue := some 200000
    landValue := some 80000
    grEStRate := some (5/100)
    maklerRate := some (3/100)
    grundbuchRate := some (5/1000)
    notaryRate := some (15/1000)
    fittingUp := some 30000
    initialRepairs := some 5000
    equity := some 80000
    loanTermYears1 := some 30
    interestRate1 := some (35/1000)
    monthlyRent := some 1200
    vacancyRate := some (5/100)
    rentGrowth := some (1/100)
    incomeTaxRate := some (3/10)
    afaModel := some "Linear 2%"
    investmentHorizonYears := some 30
    saleMode := some "hold"
    discountRate := some 0
    startYear := some 2025 }

/-- Land-only property, sold in year 1 of a 2-year horizon: exhibits what
the code records in the year after a sale. -/
def saleYear1Inputs : SimulationInputs :=
  { landValue := some 100
    equity := some 0
    saleMode := some "sell"
    saleYear := some 1
    investmentHorizonYears := some 2
    startYear := some 2025 }

/-- A loan-2-only financing (term 1 = 0), `interestRate2` absent. -/
def omitRate2Inputs : SimulationInputs :=
  { buildingValue := some 100
    equity := some 0
    loanTermYears1 := some 0
    interestRate1 := some 1
    loanTermYears2 := some 2
    investmentHorizonYears := some 1
    startYear := some 2025 }

/-- Same as `omitRate2Inputs` but with `interestRate2` explicitly `0`. -/
def zeroRate2Inputs : SimulationInputs :=
  { omitRate2Inputs with interestRate2 := some 0 }

/-- Same as `omitRate2Inputs` but over 2 years: both loan-2 years. -/
def loan2RunInputs : SimulationInputs :=
  { omitRate2Inputs with investmentHorizonYears := some 2 }

/-- A 2-year loan at the tiny but nonzero rate `1e-10` (inside the
`|rate| < 1e-9` straight-line branch of `pmt`). -/
def tinyRateLoanInputs : SimulationInputs :=
  { buildingValue := some 100
    equity := some 0
    loanTermYears1 := some 2
    interestRate1 := some (1/10000000000)
    investmentHorizonYears := some 2
    startYear := some 2025 }

/-- A 2-year loan at exactly zero rate. -/
def zeroRateLoanInputs : SimulationInputs :=
  { tinyRateLoanInputs with interestRate1 := some 0 }

/-- A 2-year loan at 100% interest (used to witness the general
amortization identity). -/
def fullRateLoanInputs : SimulationInputs :=
  { tinyRateLoanInputs with interestRate1 := some 1 }

/-- `saleMode = "sell"` with the out-of-range `saleYear = -1`: no sale can
fire, but `yearsUsed = min(-1, horizon) = -1`. -/
def negSaleYearInputs : SimulationInputs :=
  { buildingValue := some 100
    equity := some 1
    monthlyRent := some 1
    altReturnBeforeTax := some 1
    investmentHorizonYears := some 1
    startYear := some 2025
    saleMode := some "sell"
    saleYear := some (-1) }

/-- Same inputs simulated as a plain hold. -/
def negSaleYearHoldInputs : SimulationInputs :=
  { negSaleYearInputs with saleMode := some "hold" }

/-- `saleMode = "sell"` with `saleYear = 5` beyond the 1-year horizon. -/
def lateSaleYearInputs : SimulationInputs :=
  { negSaleYearInputs with saleYear := some 5 }

/-- Inputs whose only set field is `investmentHorizonYears = 0`. -/
def zeroHorizonInputs : SimulationInputs :=
  { investmentHorizonYears := some 0, startYear := some 2025 }

/-! ## Basic facts about one loop iteration -/

theorem simStep_years (c : Config) (d : Derived) (y : ℕ) (s : SimState) :
    (simStep c d y s).years = s.years ++ [(simStepFull c d y s).record] := rfl

theorem simStepFull_record_remainingDebt (c : Config) (d : Derived) (y : ℕ) (s : SimState) :
    (simStepFull c d y s).record.remainingDebt = (simStep c d y s).remainingDebt := rfl

theorem simStepFull_record_interestPaid (c : Config) (d : Derived) (y : ℕ) (s : SimState) :
    (simStepFull c d y s).record.interestPaid =
      (loanPhase d (y : ℤ) s.remainingDebt s.cumPrincipal s.annuity2
        s.secondLoanStarted).interestPaid := rfl

theorem simStepFull_record_principalPaid (c : Config) (d : Derived) (y : ℕ) (s : SimState) :
    (simStepFull c d y s).record.principalPaid =
      (loanPhase d (y : ℤ) s.remainingDebt s.cumPrincipal s.annuity2
        s.secondLoanStarted).principalPaid := rfl

theorem simStep_cumPrincipal (c : Config) (d : Derived) (y : ℕ) (s : SimState) :
    (simStep c d y s).cumPrincipal =
      (loanPhase d (y : ℤ) s.remainingDebt s.cumPrincipal s.annuity2
        s.secondLoanStarted).cumPrincipal := rfl

theorem simStep_annuity2 (c : Config) (d : Derived) (y : ℕ) (s : SimState) :
    (simStep c d y s).annuity2 =
      (loanPhase d (y : ℤ) s.remainingDebt s.cumPrincipal s.annuity2
        s.secondLoanStarted).annuity2 := rfl

theorem simStep_secondLoanStarted (c : Config) (d : Derived) (y : ℕ) (s : SimState) :
    (simStep c d y s).secondLoanStarted =
      (loanPhase d (y : ℤ) s.remainingDebt s.cumPrincipal s.annuity2
        s.secondLoanStarted).secondLoanStarted := rfl

/-- The remaining debt after a year is the loan-phase result, overridden to
`0` exactly when the sale fires. -/
theorem simStep_remainingDebt (c : Config) (d : Derived) (y : ℕ) (s : SimState) :
    (simStep c d y s).remainingDebt =
      if saleFires c y s then 0
      else (loanPhase d (y : ℤ) s.remainingDebt s.cumPrincipal s.annuity2
        s.secondLoanStarted).remainingDebt := by
  simp only [simStep, simStepFull]
  by_cases h : saleFires c y s
  · rw [if_pos h, if_pos h]
  · rw [if_neg h, if_neg h]

theorem simTrace_succ (c : Config) (d : Derived) (k : ℕ) :
    simTrace c d (k + 1) = simStep c d (k + 1) (simTrace c d k) := rfl

theorem simTrace_zero (c : Config) (d : Derived) :
    simTrace c d 0 = initState c d := rfl

theorem simTrace_years_length (c : Config) (d : Derived) (n : ℕ) :
    (simTrace c d n).years.length = n := by
  induction n with
  | zero => rfl
  | succ k ih =>
      rw [simTrace_succ, simStep_years, List.length_append, ih]
      rfl

/-- When both loan phases are inactive the loan step is a no-op with zero
interest, principal and payment (model.js lines 219-224). -/
theorem loanPhase_inactive (d : Derived) (year : ℤ) (debt cumP a2 : ℚ) (started : Bool)
    (h1 : ¬ withinLoan1 d year debt) (h2 : ¬ withinLoan2 d year debt) :
    loanPhase d year debt cumP a2 started =
      { interestPaid := 0, principalPaid := 0, annualPayment := 0,
        remainingDebt := debt, cumPrincipal := cumP, annuity2 := a2,
        secondLoanStarted := started } := by
  unfold loanPhase
  rw [if_neg h1, if_neg h2]

/-- A balance at or below the `1e-6` threshold deactivates both phases. -/
theorem loanPhase_repaid (d : Derived) (year : ℤ) (debt cumP a2 : ℚ) (started : Bool)
    (h : debt ≤ eps6) :
    loanPhase d year debt cumP a2 started =
      { interestPaid := 0, principalPaid := 0, annualPayment := 0,
        remainingDebt := debt, cumPrincipal := cumP, annuity2 := a2,
        secondLoanStarted := started } := by
  refine loanPhase_inactive d year debt cumP a2 started ?_ ?_
  · exact fun hc => absurd hc.2 (not_lt.mpr h)
  · exact fun hc => absurd hc.2.2.2 (not_lt.mpr h)

/-- Once `secondLoanStarted` is set, the loan phase never recomputes
`annuity2` and the flag stays set. -/
theorem loanPhase_started_fixed (d : Derived) (year : ℤ) (debt cumP a2 : ℚ) :
    (loanPhase d year debt cumP a2 true).annuity2 = a2 ∧
    (loanPhase d year debt cumP a2 true).secondLoanStarted = true := by
  unfold loanPhase
  split_ifs <;> simp_all

theorem loanPhase_cumPrincipal_eq (d : Derived) (year : ℤ) (debt cumP a2 : ℚ) (started : Bool) :
    (loanPhase d year debt cumP a2 started).cumPrincipal =
      cumP + (loanPhase d year debt cumP a2 started).principalPaid := by
  unfold loanPhase
  split_ifs <;> simp

theorem loanPhase_remainingDebt_nonneg (d : Derived) (year : ℤ) (debt cumP a2 : ℚ)
    (started : Bool) (h : 0 ≤ debt) :
    0 ≤ (loanPhase d year debt cumP a2 started).remainingDebt := by
  unfold loanPhase
  split_ifs <;> simp [h, le_max_iff]

/-! ## The claims -/

/-- C7: for the spec's worked scenario (buildingValue 200000, landValue
80000, the four side-cost rates summing to 10%, fittingUp 30000,
initialRepairs 5000, equity 80000, 30-year loan at 3.5%, rent 1200/month,
5% vacancy, 1% rent growth, 30% tax, "Linear 2%" AfA, 30-year horizon,
hold, zero discount), the engine derives purchasePrice = 280000,
sideCostRate = 0.1, sideCostsVariable = 28000, totalInvestment = 343000,
financingNeed = 263000, loanAmount1 = 263000, and the first-year record has
grossRent = 14400 and netRent = 13680. -/
theorem C7_worked_scenario :
    (mkDerived (unpack 2025 scenarioInputs)).purchasePrice = 280000 ∧
    (mkDerived (unpack 2025 scenarioInputs)).sideCostRate = 1/10 ∧
    (mkDerived (unpack 2025 scenarioInputs)).sideCostsVariable = 28000 ∧
    (mkDerived (unpack 2025 scenarioInputs)).totalInvestment = 343000 ∧
    (mkDerived (unpack 2025 scenarioInputs)).financingNeed = 263000 ∧
    (mkDerived (unpack 2025 scenarioInputs)).loanAmount1 = 263000 ∧
    ((simulateScenario 2025 scenarioInputs).years.map (fun r => r.grossRent)).head?
        = some 14400 ∧
    ((simulateScenario 2025 scenarioInputs).years.map (fun r => r.netRent)).head?
        = some 13680 := by
  decide!

/-- C1 (code bug): selling a land-only property (value 100, no growth) in
year 1 of a 2-year horizon.  The sale-year record does show
`propertyValue = 0` and `equityPosition = wealthFromCFAndLoan −
totalInvestment` (here `0 − 100 = −100`), but in year 2 the loop rebuilds
`propertyVal` from the never-zeroed `landVal`/`buildingVal` accumulators,
so the record reports `propertyValue = 100 ≠ 0` and `equityPosition = 0 =
propertyValue + wealth − totalInvestment`, not `wealth − totalInvestment
= −100` — contradicting the claimed post-sale behaviour for subsequent
years. -/
theorem C1_post_sale_property_value_revives :
    ((simulateScenario 2025 saleYear1Inputs).years.map
        (fun r => (r.propertyValue, r.wealthFromCFAndLoan, r.equityPosition)))
      = [(0, 0, -100), (100, 0, 0)] := by
  decide!

/-- C3 (counterexample): `interestRate2` omitted is NOT the same as
`interestRate2 = 0`, because its destructuring default is `interestRate1`
(here 100%), not `0`: with loan 1 absent (`loanTermYears1 = 0`) and a
2-year loan 2 over a 100-unit financing need, the omitted variant records
year-1 interest 100, the explicit-zero variant records 0. -/
theorem C3_counterexample :
    ((simulateScenario 2025 omitRate2Inputs).years.map (fun r => r.interestPaid) = [100]) ∧
    ((simulateScenario 2025 zeroRate2Inputs).years.map (fun r => r.interestPaid) = [0]) ∧
    simulateScenario 2025 omitRate2Inputs ≠ simulateScenario 2025 zeroRate2Inputs := by
  decide!

/-- C3 (amended): every absent field is replaced by its destructuring
default before the computation — `0` for most numeric fields, but
`investmentHorizonYears` by 30, `buildingLifetimeYears` by 50, `startYear`
by the current clock year, `interestRate2` by the (defaulted)
`interestRate1`, `altTaxRate` by the (defaulted) `incomeTaxRate`,
`afaModel` by `"Linear 2%"`, `saleMode` by `"hold"` and `saleYear` by
`null`.  Simulating any input therefore equals simulating the input with
every field explicitly set to its resolved default (`fillDefaults`). -/
theorem C3_amended_defaults (clock : ℤ) (i : SimulationInputs) :
    simulateScenario clock (fillDefaults clock i) = simulateScenario clock i ∧
    roeAnnualized clock (fillDefaults clock i) = roeAnnualized clock i ∧
    altEndValue clock (fillDefaults clock i) = altEndValue clock i ∧
    altProfit clock (fillDefaults clock i) = altProfit clock i := by
  have hu : unpack clock (fillDefaults clock i) = unpack clock i := rfl
  exact ⟨congrArg simRun hu, congrArg roeAnnualizedOf hu,
    congrArg altEndValueOf hu, congrArg altProfitOf hu⟩

/-- C4: when the sale block runs, the capital-gains tax equals
`capitalGain × incomeTaxRate` exactly when `saleYear ≤ 10` and the gain is
positive, and is `0` in every other case — in particular `0` whenever
`saleYear > 10`, regardless of the gain. -/
theorem C4_cgt_speculation_rule (c : Config) (d : Derived) (y pv debt : ℚ) :
    (y ≤ 10 → 0 < (saleEvent c d y pv debt).capitalGain →
      (saleEvent c d y pv debt).cgt
        = (saleEvent c d y pv debt).capitalGain * c.incomeTaxRate) ∧
    (10 < y → (saleEvent c d y pv debt).cgt = 0) ∧
    ((saleEvent c d y pv debt).capitalGain ≤ 0 → (saleEvent c d y pv debt).cgt = 0) := by
  unfold saleEvent
  simp only
  refine ⟨fun h1 h2 => ?_, fun h => ?_, fun h => ?_⟩
  · rw [if_pos ⟨h1, h2⟩]
  · exact if_neg fun hc => absurd hc.1 (not_le.mpr h)
  · exact if_neg fun hc => absurd hc.2 (not_lt.mpr h)

theorem C4_cgt_speculation_rule_witness :
    (saleEvent (unpack 2025 scenarioInputs) (mkDerived (unpack 2025 scenarioInputs))
        5 500000 0).cgt
      = (saleEvent (unpack 2025 scenarioInputs) (mkDerived (unpack 2025 scenarioInputs))
          5 500000 0).capitalGain * (unpack 2025 scenarioInputs).incomeTaxRate :=
  (C4_cgt_speculation_rule (unpack 2025 scenarioInputs)
    (mkDerived (unpack 2025 scenarioInputs)) 5 500000 0).1 (by norm_num) (by decide!)

/-- C9: once `startYear` is supplied explicitly, the engine is a pure
function of its inputs: its result does not depend on the ambient clock
(the only implicit input), so two calls with deep-equal inputs return
identical results. -/
theorem C9_deterministic_with_explicit_startYear (i : SimulationInputs) (t1 t2 : ℤ)
    (h : i.startYear.isSome = true) :
    simulateScenario t1 i = simulateScenario t2 i ∧
    roeAnnualized t1 i = roeAnnualized t2 i ∧
    altEndValue t1 i = altEndValue t2 i ∧
    altProfit t1 i = altProfit t2 i := by
  obtain ⟨s, hs⟩ := Option.isSome_iff_exists.mp h
  have hu : unpack t1 i = unpack t2 i := by
    unfold unpack
    rw [hs]
    rfl
  exact ⟨congrArg simRun hu, congrArg roeAnnualizedOf hu,
    congrArg altEndValueOf hu, congrArg altProfitOf hu⟩

theorem C9_deterministic_with_explicit_startYear_witness :
    simulateScenario 1999 scenarioInputs = simulateScenario 2077 scenarioInputs :=
  (C9_deterministic_with_explicit_startYear scenarioInputs 1999 2077 rfl).1

/-- C8 (counterexample): with `equity = 1 > 0` but `yearsUsed = min(−1, 1)
= −1 ≤ 0` (a "sell" run whose `saleYear = −1` never fires), `roeTotal` and
`equityMultiple` are NOT zeroed: the code only guards them on
`equity > 0`, so they come out 12 and 13 here, refuting the claim that all
three return metrics are 0 whenever `equity ≤ 0` or `yearsUsed ≤ 0`. -/
theorem C8_counterexample :
    0 < (unpack 2025 negSaleYearInputs).equity ∧
    yearsUsedOf (unpack 2025 negSaleYearInputs) ≤ 0 ∧
    (simulateScenario 2025 negSaleYearInputs).kpis.roeTotal = 12 ∧
    (simulateScenario 2025 negSaleYearInputs).kpis.equityMultiple = 13 := by
  decide!

/-- C8 (amended): the engine is total and all divisions are guarded — the
annuity is straight-lined when `|rate| < 1e-9` and zero when the term is
`≤ 0`, `loanAmount1` falls back to `financingNeed` when `|payoutFactor| <
1e-9`, `buildingShare` is 0 when `purchasePrice = 0`, `roeTotal`,
`equityMultiple` and the annualized ROE are 0 when `equity ≤ 0`, the
annualized ROE is moreover 0 when `yearsUsed ≤ 0` (but `roeTotal` and
`equityMultiple` are not guarded on `yearsUsed`), and a non-positive
`investmentHorizonYears` is floored to 1, so the result has exactly one
`YearRecord`. -/
theorem C8_numeric_guards :
    (∀ (r : ℚ) (n : ℤ) (pv : ℚ), |r| < eps9 →
        pmt r n pv = if 0 < n then pv / (n : ℚ) else 0) ∧
    (∀ c : Config, c.loanTermYears1 ≤ 0 → (mkDerived c).annuity1 = 0) ∧
    (∀ c : Config, |(mkDerived c).payoutFactor| < eps9 →
        (mkDerived c).loanAmount1 = (mkDerived c).financingNeed) ∧
    (∀ c : Config, (mkDerived c).purchasePrice = 0 → (mkDerived c).buildingShare = 0) ∧
    (∀ c : Config, c.equity ≤ 0 →
        roeTotalOf c = 0 ∧ equityMultipleOf c = 0 ∧ roeAnnualizedOf c = 0) ∧
    (∀ c : Config, yearsUsedOf c ≤ 0 → roeAnnualizedOf c = 0) ∧
    (∀ (clock : ℤ) (i : SimulationInputs) (h : ℤ), i.investmentHorizonYears = some h →
        h ≤ 0 → (simulateScenario clock i).years.length = 1) := by
  refine ⟨?_, ?_, ?_, ?_, ?_, ?_, ?_⟩
  · intro r n pv h
    unfold pmt
    rw [if_pos h]
  · intro c h
    simp only [mkDerived]
    rw [if_neg (not_lt.mpr h)]
  · intro c h
    simp only [mkDerived] at h ⊢
    rw [if_neg (not_lt.mpr (le_of_lt h))]
  · intro c h
    simp only [mkDerived] at h ⊢
    rw [if_neg (by rw [h]; exact lt_irrefl 0)]
  · intro c h
    refine ⟨?_, ?_, ?_⟩
    · unfold roeTotalOf; rw [if_neg (not_lt.mpr h)]
    · unfold equityMultipleOf; rw [if_neg (not_lt.mpr h)]
    · unfold roeAnnualizedOf; rw [if_neg fun hc => absurd hc.1 (not_lt.mpr h)]
  · intro c h
    unfold roeAnnualizedOf
    rw [if_neg fun hc => absurd hc.2 (not_lt.mpr h)]
  · intro clock i h hset hle
    have hc : (unpack clock i).investmentHorizonYears = h := by
      unfold unpack
      rw [hset]
      rfl
    have hh : horizonOf (unpack clock i) = 1 := by
      unfold horizonOf
      rw [hc]
      split_ifs with h0 <;> omega
    have hy : (simulateScenario clock i).years
        = (simTrace (unpack clock i) (mkDerived (unpack clock i))
            (horizonOf (unpack clock i)).toNat).years := rfl
    rw [hy, hh]
    exact simTrace_years_length _ _ 1

theorem C8_numeric_guards_witness :
    pmt 0 2 100 = 50 ∧ (simulateScenario 2025 zeroHorizonInputs).years.length = 1 := by
  constructor
  · have h := C8_numeric_guards.1 0 2 100 (by norm_num [eps9])
    rw [h]
    norm_num
  · exact C8_numeric_guards.2.2.2.2.2.2 2025 zeroHorizonInputs 0 rfl le_rfl

/-- C10: if the derived `loanAmount1` is non-negative, every `YearRecord`
reports a non-negative `remainingDebt`: each loan-phase update clamps the
new balance at 0 (`Math.max(…, 0)`), the idle phase leaves it unchanged,
and the sale event sets it to exactly 0. -/
theorem C10_remaining_debt_nonneg (clock : ℤ) (i : SimulationInputs)
    (h : 0 ≤ (mkDerived (unpack clock i)).loanAmount1) :
    ∀ r ∈ (simulateScenario clock i).years, 0 ≤ r.remainingDebt := by
  have key : ∀ k : ℕ,
      0 ≤ (simTrace (unpack clock i) (mkDerived (unpack clock i)) k).remainingDebt ∧
      ∀ r ∈ (simTrace (unpack clock i) (mkDerived (unpack clock i)) k).years,
        0 ≤ r.remainingDebt := by
    intro k
    induction k with
    | zero => exact ⟨h, by simp [simTrace_zero, initState]⟩
    | succ n ih =>
        have hdebt :
            0 ≤ (simTrace (unpack clock i) (mkDerived (unpack clock i)) (n+1)).remainingDebt := by
          rw [simTrace_succ, simStep_remainingDebt]
          split_ifs
          · exact le_refl 0
          · exact loanPhase_remainingDebt_nonneg _ _ _ _ _ _ ih.1
        refine ⟨hdebt, ?_⟩
        rw [simTrace_succ, simStep_years]
        intro r hr
        rcases List.mem_append.mp hr with hmem | hmem
        · exact ih.2 r hmem
        · have hrec :
              r = (simStepFull (unpack clock i) (mkDerived (unpack clock i)) (n+1)
                (simTrace (unpack clock i) (mkDerived (unpack clock i)) n)).record := by
            simpa using hmem
          rw [hrec, simStepFull_record_remainingDebt, ← simTrace_succ]
          exact hdebt
  exact fun r hr => (key (horizonOf (unpack clock i)).toNat).2 r hr

theorem C10_remaining_debt_nonneg_witness :
    0 ≤ (mkDerived (unpack 2025 scenarioInputs)).loanAmount1 ∧
    ∀ r ∈ (simulateScenario 2025 scenarioInputs).years, 0 ≤ r.remainingDebt :=
  ⟨by decide!, C10_remaining_debt_nonneg 2025 scenarioInputs (by decide!)⟩

/-- C2 (counterexample): with `saleMode = "sell"` and the never-matching,
non-positive `saleYear = −1` over a 1-year horizon (equity 1, pre-tax
alternative return 100%, tax 0), the KPI block still computes
`yearsUsed = min(−1, 1) = −1`, so `altEndValue = 1·2^{−1} = 1/2`, whereas
the same inputs with `saleMode = "hold"` give `yearsUsed = 1` and
`altEndValue = 2`: the KPIs do NOT all coincide with the hold run. -/
theorem C2_counterexample :
    altEndValue 2025 negSaleYearInputs = 1/2 ∧
    altEndValue 2025 negSaleYearHoldInputs = 2 ∧
    altEndValue 2025 negSaleYearInputs ≠ altEndValue 2025 negSaleYearHoldInputs := by
  have hy1 : yearsUsedOf (unpack 2025 negSaleYearInputs) = -1 := by decide!
  have hy2 : yearsUsedOf (unpack 2025 negSaleYearHoldInputs) = 1 := by decide!
  have he1 : (unpack 2025 negSaleYearInputs).equity = 1 := by decide!
  have he2 : (unpack 2025 negSaleYearHoldInputs).equity = 1 := by decide!
  have ha1 : (unpack 2025 negSaleYearInputs).altReturnBeforeTax
      * (1 - (unpack 2025 negSaleYearInputs).altTaxRate) = 1 := by decide!
  have ha2 : (unpack 2025 negSaleYearHoldInputs).altReturnBeforeTax
      * (1 - (unpack 2025 negSaleYearHoldInputs).altTaxRate) = 1 := by decide!
  have e1 : altEndValue 2025 negSaleYearInputs = 1/2 := by
    unfold altEndValue altEndValueOf
    rw [ha1, he1, hy1]
    push_cast
    rw [show ((-1 : ℝ)) = ((-1 : ℤ) : ℝ) by norm_num, Real.rpow_intCast]
    norm_num
  have e2 : altEndValue 2025 negSaleYearHoldInputs = 2 := by
    unfold altEndValue altEndValueOf
    rw [ha2, he2, hy2]
    push_cast
    rw [Real.rpow_one]
    norm_num
  exact ⟨e1, e2, by rw [e1, e2]; norm_num⟩

/-- C5: the loan schedule is a strict two-phase state machine
{Loan1, Loan2, Repaid} with no backward transition:
(i) phase 2 can only be active in a year strictly after `loanTermYears1`,
within `loanTermYears1 + loanTermYears2`, and only while the balance
exceeds the `1e-6` threshold; (ii) once the balance is at or below `1e-6`
it stays there (Repaid is absorbing); (iii) from such a year on, interest,
principal and the annual payment are 0 (also as recorded); and (iv)
`annuity2` is computed exactly once, on first entry to phase 2, from the
then-current balance, `rate2` and `term2`, and both it and the
phase-entered flag stay fixed for all later years. -/
theorem C5_two_phase_loan_state_machine :
    (∀ (d : Derived) (year : ℤ) (debt : ℚ), withinLoan2 d year debt →
        d.n1 < year ∧ year ≤ d.n1 + d.n2 ∧ eps6 < debt) ∧
    (∀ (c : Config) (d : Derived) (j k : ℕ), j ≤ k →
        (simTrace c d j).remainingDebt ≤ eps6 →
        (simTrace c d k).remainingDebt ≤ eps6) ∧
    (∀ (c : Config) (d : Derived) (k : ℕ), (simTrace c d k).remainingDebt ≤ eps6 →
        (loanPhase d ((k+1 : ℕ) : ℤ) (simTrace c d k).remainingDebt
            (simTrace c d k).cumPrincipal (simTrace c d k).annuity2
            (simTrace c d k).secondLoanStarted).interestPaid = 0 ∧
        (loanPhase d ((k+1 : ℕ) : ℤ) (simTrace c d k).remainingDebt
            (simTrace c d k).cumPrincipal (simTrace c d k).annuity2
            (simTrace c d k).secondLoanStarted).principalPaid = 0 ∧
        (loanPhase d ((k+1 : ℕ) : ℤ) (simTrace c d k).remainingDebt
            (simTrace c d k).cumPrincipal (simTrace c d k).annuity2
            (simTrace c d k).secondLoanStarted).annualPayment = 0 ∧
        (simStepFull c d (k+1) (simTrace c d k)).record.interestPaid = 0 ∧
        (simStepFull c d (k+1) (simTrace c d k)).record.principalPaid = 0) ∧
    (∀ (c : Config) (d : Derived) (k m : ℕ),
        (simTrace c d k).secondLoanStarted = false →
        withinLoan2 d ((k+1 : ℕ) : ℤ) (simTrace c d k).remainingDebt →
        k < m →
        (simTrace c d m).annuity2 = pmt d.r2 d.n2 ((simTrace c d k).remainingDebt) ∧
        (simTrace c d m).secondLoanStarted = true) := by
  refine ⟨?_, ?_, ?_, ?_⟩
  · intro d year debt h
    obtain ⟨hnot, hn2, hle, hdebt⟩ := h
    refine ⟨?_, hle, hdebt⟩
    by_contra hc
    exact hnot ⟨not_lt.mp hc, hdebt⟩
  · intro c d j k hjk hj
    induction k, hjk using Nat.le_induction with
    | base => exact hj
    | succ n hn ih =>
        rw [simTrace_succ, simStep_remainingDebt]
        split_ifs
        · norm_num [eps6]
        · rw [loanPhase_repaid _ _ _ _ _ _ ih]
          exact ih
  · intro c d k h
    have hl := loanPhase_repaid d ((k+1 : ℕ) : ℤ) (simTrace c d k).remainingDebt
      (simTrace c d k).cumPrincipal (simTrace c d k).annuity2
      (simTrace c d k).secondLoanStarted h
    refine ⟨?_, ?_, ?_, ?_, ?_⟩
    · rw [hl]
    · rw [hl]
    · rw [hl]
    · rw [simStepFull_record_interestPaid, hl]
    · rw [simStepFull_record_principalPaid, hl]
  · intro c d k m hst hw2 hkm
    induction m, hkm using Nat.le_induction with
    | base =>
        constructor
        · rw [simTrace_succ, simStep_annuity2]
          unfold loanPhase
          rw [if_neg hw2.1, if_pos hw2, hst]
          simp
        · rw [simTrace_succ, simStep_secondLoanStarted]
          unfold loanPhase
          rw [if_neg hw2.1, if_pos hw2]
    | succ n hn ih =>
        constructor
        · rw [simTrace_succ, simStep_annuity2, ih.2,
            (loanPhase_started_fixed d ((n+1 : ℕ) : ℤ) (simTrace c d n).remainingDebt
              (simTrace c d n).cumPrincipal (simTrace c d n).annuity2).1, ih.1]
        · rw [simTrace_succ, simStep_secondLoanStarted, ih.2,
            (loanPhase_started_fixed d ((n+1 : ℕ) : ℤ) (simTrace c d n).remainingDebt
              (simTrace c d n).cumPrincipal (simTrace c d n).annuity2).2]

theorem C5_two_phase_loan_state_machine_witness :
    (simTrace (unpack 2025 loan2RunInputs) (mkDerived (unpack 2025 loan2RunInputs)) 2).annuity2
        = pmt (mkDerived (unpack 2025 loan2RunInputs)).r2
            (mkDerived (unpack 2025 loan2RunInputs)).n2
            ((simTrace (unpack 2025 loan2RunInputs)
              (mkDerived (unpack 2025 loan2RunInputs)) 0).remainingDebt) ∧
    (simTrace (unpack 2025 loan2RunInputs)
        (mkDerived (unpack 2025 loan2RunInputs)) 2).secondLoanStarted = true :=
  C5_two_phase_loan_state_machine.2.2.2 (unpack 2025 loan2RunInputs)
    (mkDerived (unpack 2025 loan2RunInputs)) 0 2 (by decide!) (by decide!) (by norm_num)

/-- A year in which the sale guard is false behaves identically whether
`saleMode` is the configured value or `"hold"` (the guard is the only place
the loop reads `saleMode`). -/
theorem simStep_hold_of_no_fire (c : Config) (d : Derived) (y : ℕ) (s : SimState)
    (h : c.saleYear ≠ some ((y : ℚ))) :
    simStep { c with saleMode := "hold" } d y s = simStep c d y s := by
  have h1 : ¬ saleFires { c with saleMode := "hold" } y s := by
    intro hc
    have := hc.2.1
    simp at this
  have h2 : ¬ saleFires c y s := fun hc => h hc.2.2
  simp only [simStep, simStepFull]
  rw [if_neg h1, if_neg h2]

/-- If `saleYear` matches no simulated year up to `N`, the whole loop state
is the same as in a hold run. -/
theorem simTrace_hold_of_no_match (c : Config) (d : Derived) (N : ℕ)
    (hno : ∀ k : ℕ, 1 ≤ k → k ≤ N → c.saleYear ≠ some ((k : ℚ))) :
    ∀ k, k ≤ N → simTrace { c with saleMode := "hold" } d k = simTrace c d k := by
  intro k
  induction k with
  | zero => intro _; rfl
  | succ n ih =>
      intro hle
      rw [simTrace_succ, simTrace_succ, ih (Nat.le_of_succ_le hle)]
      exact simStep_hold_of_no_fire c d (n+1) _ (hno (n+1) (by omega) hle)

/-- For a `saleYear` matching no simulated year, the ledger and the
rational KPI block of a run equal those of the hold run. -/
theorem simRun_no_match_eq_hold (clock : ℤ) (i : SimulationInputs)
    (hno : ∀ k : ℕ, 1 ≤ k → k ≤ (horizonOf (unpack clock i)).toNat →
      (unpack clock i).saleYear ≠ some ((k : ℚ))) :
    (simulateScenario clock i).years
        = (simulateScenario clock { i with saleMode := some "hold" }).years ∧
    (simulateScenario clock i).kpis
        = (simulateScenario clock { i with saleMode := some "hold" }).kpis ∧
    lastYearOf { unpack clock i with saleMode := "hold" } = lastYearOf (unpack clock i) ∧
    roeTotalOf { unpack clock i with saleMode := "hold" } = roeTotalOf (unpack clock i) := by
  have htr := simTrace_hold_of_no_match (unpack clock i) (mkDerived (unpack clock i))
    (horizonOf (unpack clock i)).toNat hno (horizonOf (unpack clock i)).toNat le_rfl
  have hyears : (simulateScenario clock { i with saleMode := some "hold" }).years
      = (simulateScenario clock i).years := by
    show (simTrace { unpack clock i with saleMode := "hold" }
        (mkDerived { unpack clock i with saleMode := "hold" })
        (horizonOf { unpack clock i with saleMode := "hold" }).toNat).years
      = (simTrace (unpack clock i) (mkDerived (unpack clock i))
          (horizonOf (unpack clock i)).toNat).years
    rw [show mkDerived { unpack clock i with saleMode := "hold" }
          = mkDerived (unpack clock i) from rfl,
        show horizonOf { unpack clock i with saleMode := "hold" }
          = horizonOf (unpack clock i) from rfl, htr]
  have hlast : lastYearOf { unpack clock i with saleMode := "hold" }
      = lastYearOf (unpack clock i) := by
    unfold lastYearOf
    rw [show mkDerived { unpack clock i with saleMode := "hold" }
          = mkDerived (unpack clock i) from rfl,
        show horizonOf { unpack clock i with saleMode := "hold" }
          = horizonOf (unpack clock i) from rfl, htr]
  have hroe : roeTotalOf { unpack clock i with saleMode := "hold" }
      = roeTotalOf (unpack clock i) := by
    unfold roeTotalOf
    rw [hlast]
  have hmult : equityMultipleOf { unpack clock i with saleMode := "hold" }
      = equityMultipleOf (unpack clock i) := by
    unfold equityMultipleOf
    rw [hlast]
  refine ⟨hyears.symm, ?_, hlast, hroe⟩
  show Kpis.mk (unpack clock i).equity (lastYearOf (unpack clock i)).equityPosition
      (lastYearOf (unpack clock i)).equityPosition (roeTotalOf (unpack clock i))
      (equityMultipleOf (unpack clock i)) (lastYearOf (unpack clock i)).propertyValue
      (lastYearOf (unpack clock i)).remainingDebt (lastYearOf (unpack clock i)).cumulativeCF
    = Kpis.mk ({ unpack clock i with saleMode := "hold" } : Config).equity
      (lastYearOf { unpack clock i with saleMode := "hold" }).equityPosition
      (lastYearOf { unpack clock i with saleMode := "hold" }).equityPosition
      (roeTotalOf { unpack clock i with saleMode := "hold" })
      (equityMultipleOf { unpack clock i with saleMode := "hold" })
      (lastYearOf { unpack clock i with saleMode := "hold" }).propertyValue
      (lastYearOf { unpack clock i with saleMode := "hold" }).remainingDebt
      (lastYearOf { unpack clock i with saleMode := "hold" }).cumulativeCF
  rw [hlast, hroe, hmult]

/-- C2 (amended): with a `saleYear` that never matches a simulated year, no
sale fires: the year ledger and the rational-valued KPI block always
coincide with the hold run on the same inputs; and if moreover `saleYear`
is null or greater than `horizonYears` (so that
`yearsUsed = min(saleYear, horizonYears)` still equals `horizonYears`),
the annualized-ROE and alternative-investment KPIs coincide as well.  (For
a never-matching `saleYear` below the horizon — non-positive or fractional
— `yearsUsed` differs and those KPIs may differ, as the counterexample
shows; `meta` records the verbatim `saleMode`/`saleYear` and trivially
differs.) -/
theorem C2_unmatched_sale_year_behaves_as_hold (clock : ℤ) (i : SimulationInputs) :
    ((∀ k : ℕ, 1 ≤ k → k ≤ (horizonOf (unpack clock i)).toNat →
        (unpack clock i).saleYear ≠ some ((k : ℚ))) →
      (simulateScenario clock i).years
          = (simulateScenario clock { i with saleMode := some "hold" }).years ∧
      (simulateScenario clock i).kpis
          = (simulateScenario clock { i with saleMode := some "hold" }).kpis) ∧
    (((unpack clock i).saleYear = none ∨
        ∃ q : ℚ, (unpack clock i).saleYear = some q ∧
          (((horizonOf (unpack clock i) : ℤ) : ℚ)) < q) →
      (simulateScenario clock i).years
          = (simulateScenario clock { i with saleMode := some "hold" }).years ∧
      (simulateScenario clock i).kpis
          = (simulateScenario clock { i with saleMode := some "hold" }).kpis ∧
      roeAnnualized clock i = roeAnnualized clock { i with saleMode := some "hold" } ∧
      altEndValue clock i = altEndValue clock { i with saleMode := some "hold" } ∧
      altProfit clock i = altProfit clock { i with saleMode := some "hold" }) := by
  constructor
  · intro hno
    exact ⟨(simRun_no_match_eq_hold clock i hno).1, (simRun_no_match_eq_hold clock i hno).2.1⟩
  · intro hcase
    have hno : ∀ k : ℕ, 1 ≤ k → k ≤ (horizonOf (unpack clock i)).toNat →
        (unpack clock i).saleYear ≠ some ((k : ℚ)) := by
      rcases hcase with hnone | ⟨q, hq, hlt⟩
      · intro k _ _
        rw [hnone]
        exact fun hc => Option.noConfusion hc
      · intro k _ hk heq
        rw [hq] at heq
        have hkq : q = (k : ℚ) := Option.some.inj heq
        have hkz : (k : ℤ) ≤ horizonOf (unpack clock i) := by omega
        have hkk : ((k : ℚ)) ≤ (((horizonOf (unpack clock i) : ℤ) : ℚ)) := by
          exact_mod_cast hkz
        rw [← hkq] at hkk
        exact absurd (lt_of_le_of_lt hkk hlt) (lt_irrefl q)
    obtain ⟨hyears, hkpis, hlast, hroe⟩ := simRun_no_match_eq_hold clock i hno
    have hyu : yearsUsedOf { unpack clock i with saleMode := "hold" }
        = yearsUsedOf (unpack clock i) := by
      unfold yearsUsedOf
      rw [show ({ unpack clock i with saleMode := "hold" } : Config).saleYear
            = (unpack clock i).saleYear from rfl,
          show horizonOf { unpack clock i with saleMode := "hold" }
            = horizonOf (unpack clock i) from rfl,
          show ({ unpack clock i with saleMode := "hold" } : Config).saleMode
            = "hold" from rfl]
      rcases hcase with hnone | ⟨q, hq, hlt⟩
      · rw [if_neg (fun hc => hc.2 hnone), if_neg (fun hc => hc.2 hnone)]
      · rw [if_neg (by simp)]
        by_cases hm : (unpack clock i).saleMode = "sell"
        · rw [if_pos ⟨hm, by rw [hq]; exact fun hc => Option.noConfusion hc⟩, hq]
          exact (min_eq_right (le_of_lt hlt)).symm
        · rw [if_neg (fun hc => hm hc.1)]
    have hann : roeAnnualized clock i = roeAnnualized clock { i with saleMode := some "hold" } := by
      show roeAnnualizedOf (unpack clock i)
          = roeAnnualizedOf { unpack clock i with saleMode := "hold" }
      unfold roeAnnualizedOf
      rw [hyu, hroe, show ({ unpack clock i with saleMode := "hold" } : Config).equity
          = (unpack clock i).equity from rfl]
    have halt : altEndValue clock i = altEndValue clock { i with saleMode := some "hold" } := by
      show altEndValueOf (unpack clock i)
          = altEndValueOf { unpack clock i with saleMode := "hold" }
      unfold altEndValueOf
      rw [hyu, show ({ unpack clock i with saleMode := "hold" } : Config).equity
            = (unpack clock i).equity from rfl,
          show ({ unpack clock i with saleMode := "hold" } : Config).altReturnBeforeTax
            = (unpack clock i).altReturnBeforeTax from rfl,
          show ({ unpack clock i with saleMode := "hold" } : Config).altTaxRate
            = (unpack clock i).altTaxRate from rfl]
    have hprof : altProfit clock i = altProfit clock { i with saleMode := some "hold" } := by
      show altProfitOf (unpack clock i)
          = altProfitOf { unpack clock i with saleMode := "hold" }
      unfold altProfitOf
      rw [show altEndValueOf { unpack clock i with saleMode := "hold" }
            = altEndValue clock { i with saleMode := some "hold" } from rfl,
          ← halt,
          show ({ unpack clock i with saleMode := "hold" } : Config).equity
            = (unpack clock i).equity from rfl]
      rfl
    exact ⟨hyears, hkpis, hann, halt, hprof⟩

/-- Loan-phase-1 step, spelled out (model.js lines 201-207). -/
theorem loanPhase_loan1 (d : Derived) (year : ℤ) (debt cumP a2 : ℚ) (started : Bool)
    (h : withinLoan1 d year debt) :
    loanPhase d year debt cumP a2 started =
      { interestPaid := debt * d.r1
        principalPaid := min (d.annuity1 - debt * d.r1) debt
        annualPayment := d.annuity1
        remainingDebt := max (debt - min (d.annuity1 - debt * d.r1) debt) 0
        cumPrincipal := cumP + min (d.annuity1 - debt * d.r1) debt
        annuity2 := a2
        secondLoanStarted := started } := by
  unfold loanPhase
  rw [if_pos h]

/-- `annuity1` as the source computes it (model.js line 165). -/
theorem mkDerived_annuity1 (c : Config) :
    (mkDerived c).annuity1 =
      if 0 < (mkDerived c).n1 then
        pmt (mkDerived c).r1 (mkDerived c).n1 (mkDerived c).loanAmount1
      else 0 := rfl

/-- The running `cumPrincipal` accumulator always equals the sum of the
recorded `principalPaid` entries. -/
theorem simTrace_cumPrincipal_eq_sum (c : Config) (d : Derived) (n : ℕ) :
    (simTrace c d n).cumPrincipal
      = ((simTrace c d n).years.map (fun r => r.principalPaid)).sum := by
  induction n with
  | zero => rfl
  | succ k ih =>
      rw [simTrace_succ, simStep_cumPrincipal, loanPhase_cumPrincipal_eq,
        ← simStepFull_record_principalPaid c d (k+1) (simTrace c d k), ih,
        simStep_years, List.map_append,
        List.sum_append]
      simp

/-- Exact amortization of a zero-rate loan-1: if the balance stays above
the `1e-6` threshold in every year before the term ends, the debt after
`k ≤ term` years is `loanAmount1 · (term − k) / term`. -/
theorem zero_rate_loan_debt (c : Config) (d : Derived)
    (hr : d.r1 = 0) (hn : 1 ≤ d.n1)
    (hA : d.annuity1 = d.loanAmount1 / ((d.n1 : ℤ) : ℚ))
    (H : ∀ j : ℕ, j < d.n1.toNat → eps6 < (simTrace c d j).remainingDebt) :
    ∀ k : ℕ, k ≤ d.n1.toNat →
      (simTrace c d k).remainingDebt
          = d.loanAmount1 * (((d.n1 : ℤ) : ℚ) - (k : ℚ)) / ((d.n1 : ℤ) : ℚ) ∧
      (simTrace c d k).cumPrincipal
          = d.loanAmount1 - (simTrace c d k).remainingDebt := by
  have h0 : (simTrace c d 0).remainingDebt = d.loanAmount1 := rfl
  have hpv : 0 < d.loanAmount1 := by
    have := H 0 (by omega)
    rw [h0] at this
    have he : (0 : ℚ) < eps6 := by norm_num [eps6]
    linarith
  have hnq : (0 : ℚ) < ((d.n1 : ℤ) : ℚ) := by exact_mod_cast lt_of_lt_of_le zero_lt_one hn
  intro k
  induction k with
  | zero =>
      intro _
      constructor
      · rw [h0]
        push_cast
        field_simp
      · show (0 : ℚ) = d.loanAmount1 - (simTrace c d 0).remainingDebt
        rw [h0]
        ring
  | succ k ih =>
      intro hk1
      obtain ⟨ihd, ihc⟩ := ih (Nat.le_of_succ_le hk1)
      have hkq : (k : ℚ) + 1 ≤ ((d.n1 : ℤ) : ℚ) := by
        have : (k : ℤ) + 1 ≤ d.n1 := by omega
        exact_mod_cast this
      have hw1 : withinLoan1 d ((k+1 : ℕ) : ℤ) (simTrace c d k).remainingDebt :=
        ⟨by push_cast; omega, H k (by omega)⟩
      have hlo := loanPhase_loan1 d ((k+1 : ℕ) : ℤ) (simTrace c d k).remainingDebt
        (simTrace c d k).cumPrincipal (simTrace c d k).annuity2
        (simTrace c d k).secondLoanStarted hw1
      have hmin : min (d.annuity1 - (simTrace c d k).remainingDebt * d.r1)
          ((simTrace c d k).remainingDebt) = d.annuity1 := by
        rw [hr, mul_zero, sub_zero]
        refine min_eq_left ?_
        rw [hA, ihd, div_le_div_iff₀ hnq hnq]
        have h1 : (1 : ℚ) ≤ ((d.n1 : ℤ) : ℚ) - (k : ℚ) := by linarith
        nlinarith [mul_nonneg (mul_nonneg hpv.le hnq.le)
          (show (0 : ℚ) ≤ ((d.n1 : ℤ) : ℚ) - (k : ℚ) - 1 by linarith)]
      have hDk1 : (0 : ℚ) ≤ (simTrace c d k).remainingDebt - d.annuity1 := by
        rw [hA, ihd, div_sub_div_same]
        apply div_nonneg _ hnq.le
        nlinarith
      have hdebt1 : (simTrace c d (k+1)).remainingDebt
          = d.loanAmount1 * (((d.n1 : ℤ) : ℚ) - ((k+1 : ℕ) : ℚ)) / ((d.n1 : ℤ) : ℚ) := by
        rw [simTrace_succ, simStep_remainingDebt]
        split_ifs with hf
        · rcases lt_or_eq_of_le hk1 with hlt | heq
          · exfalso
            have hgt := H (k+1) hlt
            rw [simTrace_succ, simStep_remainingDebt, if_pos hf] at hgt
            norm_num [eps6] at hgt
          · have hnk : ((d.n1 : ℤ) : ℚ) = ((k+1 : ℕ) : ℚ) := by
              have : d.n1 = ((k+1 : ℕ) : ℤ) := by omega
              exact_mod_cast this
            rw [hnk, sub_self, mul_zero, zero_div]
        · rw [hlo]
          show max ((simTrace c d k).remainingDebt
              - min (d.annuity1 - (simTrace c d k).remainingDebt * d.r1)
                ((simTrace c d k).remainingDebt)) 0 = _
          rw [hmin, max_eq_left hDk1, ihd, hA]
          have hne := hnq.ne'
          push_cast
          field_simp
          ring
      refine ⟨hdebt1, ?_⟩
      have hcum : (simTrace c d (k+1)).cumPrincipal
          = (simTrace c d k).cumPrincipal + d.annuity1 := by
        rw [simTrace_succ, simStep_cumPrincipal, hlo]
        show (simTrace c d k).cumPrincipal
            + min (d.annuity1 - (simTrace c d k).remainingDebt * d.r1)
              ((simTrace c d k).remainingDebt) = _
        rw [hmin]
      rw [hcum, ihc, hdebt1, ihd, hA]
      have hne := hnq.ne'
      push_cast
      field_simp
      ring

/-- Exact amortization of loan-1 under the annuity formula: for a rate at
or above the `1e-9` guard, if the balance stays above the `1e-6` threshold
in every year before the term ends, the debt after `k ≤ term` years is
`loanAmount1 · (1 − (1+r)^(k−term)) / (1 − (1+r)^(−term))` — in particular
exactly `0` at `k = term`. -/
theorem annuity_rate_loan_debt (c : Config) (d : Derived)
    (hr : eps9 ≤ d.r1) (hn : 1 ≤ d.n1)
    (hA : d.annuity1 = d.loanAmount1 * d.r1 / (1 - (1 + d.r1) ^ (-d.n1)))
    (H : ∀ j : ℕ, j < d.n1.toNat → eps6 < (simTrace c d j).remainingDebt) :
    ∀ k : ℕ, k ≤ d.n1.toNat →
      (simTrace c d k).remainingDebt
          = d.loanAmount1 * (1 - (1 + d.r1) ^ ((k : ℤ) - d.n1))
              / (1 - (1 + d.r1) ^ (-d.n1)) ∧
      (simTrace c d k).cumPrincipal
          = d.loanAmount1 - (simTrace c d k).remainingDebt := by
  have h0 : (simTrace c d 0).remainingDebt = d.loanAmount1 := rfl
  have hpv : 0 < d.loanAmount1 := by
    have := H 0 (by omega)
    rw [h0] at this
    have he : (0 : ℚ) < eps6 := by norm_num [eps6]
    linarith
  have hr0 : (0 : ℚ) < d.r1 := lt_of_lt_of_le (by norm_num [eps9]) hr
  have hB : (1 : ℚ) < 1 + d.r1 := by linarith
  have hBne : (1 + d.r1) ≠ 0 := by linarith
  have hpow_lt : (1 + d.r1) ^ (-d.n1) < 1 := by
    have h1 : (1 + d.r1) ^ (-d.n1) < (1 + d.r1) ^ (0 : ℤ) :=
      (zpow_lt_zpow_iff_right₀ hB).mpr (by omega)
    simpa using h1
  have hden : (0 : ℚ) < 1 - (1 + d.r1) ^ (-d.n1) := by linarith
  have hdenne : (1 - (1 + d.r1) ^ (-d.n1)) ≠ 0 := hden.ne'
  intro k
  induction k with
  | zero =>
      intro _
      constructor
      · rw [h0]
        have hz : ((0 : ℕ) : ℤ) - d.n1 = -d.n1 := by omega
        rw [hz, mul_div_assoc, div_self hdenne, mul_one]
      · show (0 : ℚ) = d.loanAmount1 - (simTrace c d 0).remainingDebt
        rw [h0]
        ring
  | succ k ih =>
      intro hk1
      obtain ⟨ihd, ihc⟩ := ih (Nat.le_of_succ_le hk1)
      have hw1 : withinLoan1 d ((k+1 : ℕ) : ℤ) (simTrace c d k).remainingDebt :=
        ⟨by push_cast; omega, H k (by omega)⟩
      have hlo := loanPhase_loan1 d ((k+1 : ℕ) : ℤ) (simTrace c d k).remainingDebt
        (simTrace c d k).cumPrincipal (simTrace c d k).annuity2
        (simTrace c d k).secondLoanStarted hw1
      have hsplit : (((k+1 : ℕ) : ℤ) - d.n1) = ((k : ℤ) - d.n1) + 1 := by push_cast; ring
      have hstep_pow : (1 + d.r1) ^ (((k+1 : ℕ) : ℤ) - d.n1)
          = (1 + d.r1) ^ ((k : ℤ) - d.n1) * (1 + d.r1) := by
        rw [hsplit, zpow_add_one₀ hBne]
      have hpow_le : (1 + d.r1) ^ (((k+1 : ℕ) : ℤ) - d.n1) ≤ 1 :=
        zpow_le_one_of_nonpos₀ hB.le (by push_cast; omega)
      have hDk1_nonneg : (0 : ℚ)
          ≤ d.loanAmount1 * (1 - (1 + d.r1) ^ (((k+1 : ℕ) : ℤ) - d.n1))
              / (1 - (1 + d.r1) ^ (-d.n1)) :=
        div_nonneg (mul_nonneg hpv.le (by linarith)) hden.le
      have hid : (1 + d.r1) * ((simTrace c d k).remainingDebt) - d.annuity1
          = d.loanAmount1 * (1 - (1 + d.r1) ^ (((k+1 : ℕ) : ℤ) - d.n1))
              / (1 - (1 + d.r1) ^ (-d.n1)) := by
        rw [ihd, hA, hstep_pow]
        field_simp
        ring
      have hE : (0 : ℚ) ≤ (1 + d.r1) * ((simTrace c d k).remainingDebt) - d.annuity1 := by
        rw [hid]
        exact hDk1_nonneg
      have hmin : min (d.annuity1 - (simTrace c d k).remainingDebt * d.r1)
          ((simTrace c d k).remainingDebt)
            = d.annuity1 - (simTrace c d k).remainingDebt * d.r1 := by
        apply min_eq_left
        nlinarith [hE]
      have hdebt1 : (simTrace c d (k+1)).remainingDebt
          = d.loanAmount1 * (1 - (1 + d.r1) ^ (((k+1 : ℕ) : ℤ) - d.n1))
              / (1 - (1 + d.r1) ^ (-d.n1)) := by
        rw [simTrace_succ, simStep_remainingDebt]
        split_ifs with hf
        · rcases lt_or_eq_of_le hk1 with hlt | heq
          · exfalso
            have hgt := H (k+1) hlt
            rw [simTrace_succ, simStep_remainingDebt, if_pos hf] at hgt
            norm_num [eps6] at hgt
          · have hnk : (((k+1 : ℕ) : ℤ) - d.n1) = 0 := by omega
            rw [hnk, zpow_zero, sub_self, mul_zero, zero_div]
        · rw [hlo]
          show max ((simTrace c d k).remainingDebt
              - min (d.annuity1 - (simTrace c d k).remainingDebt * d.r1)
                ((simTrace c d k).remainingDebt)) 0 = _
          rw [hmin]
          have hval : (simTrace c d k).remainingDebt
              - (d.annuity1 - (simTrace c d k).remainingDebt * d.r1)
                = (1 + d.r1) * ((simTrace c d k).remainingDebt) - d.annuity1 := by
            ring
          rw [hval, max_eq_left hE, hid]
      refine ⟨hdebt1, ?_⟩
      have hcum : (simTrace c d (k+1)).cumPrincipal
          = (simTrace c d k).cumPrincipal
              + (d.annuity1 - (simTrace c d k).remainingDebt * d.r1) := by
        rw [simTrace_succ, simStep_cumPrincipal, hlo]
        show (simTrace c d k).cumPrincipal
            + min (d.annuity1 - (simTrace c d k).remainingDebt * d.r1)
              ((simTrace c d k).remainingDebt) = _
        rw [hmin]
      rw [hcum, ihc, hdebt1, ← hid]
      ring

/-- C6 (counterexample): at the tiny but nonzero rate `1e-10` (inside the
`|rate| < 1e-9` straight-line branch, term 2, horizon 2) the annuity is
`loanAmount1 / term` as claimed, but the interest accrued at the nonzero
rate is never amortized, so `remainingDebt` after `term` years is NOT
exactly 0 — refuting the claim for `|rate| < 1e-9` with `rate ≠ 0`. -/
theorem C6_counterexample :
    |(unpack 2025 tinyRateLoanInputs).interestRate1| < eps9 ∧
    (unpack 2025 tinyRateLoanInputs).interestRate1 ≠ 0 ∧
    (mkDerived (unpack 2025 tinyRateLoanInputs)).n1 = 2 ∧
    horizonOf (unpack 2025 tinyRateLoanInputs) = 2 ∧
    (mkDerived (unpack 2025 tinyRateLoanInputs)).annuity1
        = (mkDerived (unpack 2025 tinyRateLoanInputs)).loanAmount1 / 2 ∧
    (simulateScenario 2025 tinyRateLoanInputs).kpis.remainingDebtEnd ≠ 0 := by
  decide!

/-- C6 (amended): loan 1 amortizes completely, provided the balance stays
above the `1e-6` activity threshold in each year before the term ends
(automatic for realistic loan sizes): (a) for a rate of exactly 0 (not
merely `|rate| < 1e-9`, see the counterexample), term ≥ 1 within the
horizon, the annuity equals `loanAmount1 / term` and `remainingDebt` is
exactly 0 after `term` years; and (b) for a rate at or above the `1e-9`
annuity-formula guard, `remainingDebt` is exactly 0 after `term` years and
the sum of the recorded `principalPaid` over loan-1's years equals
`loanAmount1` (loan 2, if configured, never activates since the loan fully
amortizes within term 1). -/
theorem C6_loan1_amortizes_fully :
    (∀ c : Config,
      (mkDerived c).r1 = 0 →
      1 ≤ (mkDerived c).n1 →
      (mkDerived c).n1 ≤ horizonOf c →
      (∀ j : ℕ, j < (mkDerived c).n1.toNat →
        eps6 < (simTrace c (mkDerived c) j).remainingDebt) →
      (mkDerived c).annuity1
          = (mkDerived c).loanAmount1 / (((mkDerived c).n1 : ℤ) : ℚ) ∧
      (simTrace c (mkDerived c) (mkDerived c).n1.toNat).remainingDebt = 0 ∧
      (simTrace c (mkDerived c) (mkDerived c).n1.toNat).cumPrincipal
          = (mkDerived c).loanAmount1) ∧
    (∀ c : Config,
      eps9 ≤ (mkDerived c).r1 →
      1 ≤ (mkDerived c).n1 →
      (mkDerived c).n1 ≤ horizonOf c →
      (∀ j : ℕ, j < (mkDerived c).n1.toNat →
        eps6 < (simTrace c (mkDerived c) j).remainingDebt) →
      (simTrace c (mkDerived c) (mkDerived c).n1.toNat).remainingDebt = 0 ∧
      (simTrace c (mkDerived c) (mkDerived c).n1.toNat).cumPrincipal
          = (mkDerived c).loanAmount1 ∧
      (((simTrace c (mkDerived c) (mkDerived c).n1.toNat).years.map
          (fun r => r.principalPaid)).sum = (mkDerived c).loanAmount1)) := by
  constructor
  · intro c hr hn _ H
    have hA : (mkDerived c).annuity1
        = (mkDerived c).loanAmount1 / (((mkDerived c).n1 : ℤ) : ℚ) := by
      rw [mkDerived_annuity1, if_pos (by omega)]
      unfold pmt
      rw [if_pos (by rw [hr]; norm_num [eps9]), if_pos (by omega)]
    obtain ⟨h1, h2⟩ := zero_rate_loan_debt c (mkDerived c) hr hn hA H
      (mkDerived c).n1.toNat le_rfl
    have hcast : (((mkDerived c).n1.toNat : ℕ) : ℚ) = (((mkDerived c).n1 : ℤ) : ℚ) := by
      have hz : (((mkDerived c).n1.toNat : ℕ) : ℤ) = (mkDerived c).n1 := by omega
      exact_mod_cast hz
    have hzero : (simTrace c (mkDerived c) (mkDerived c).n1.toNat).remainingDebt = 0 := by
      rw [h1, hcast, sub_self, mul_zero, zero_div]
    refine ⟨hA, hzero, ?_⟩
    rw [h2, hzero, sub_zero]
  · intro c hr hn _ H
    have hA : (mkDerived c).annuity1
        = (mkDerived c).loanAmount1 * (mkDerived c).r1
            / (1 - (1 + (mkDerived c).r1) ^ (-(mkDerived c).n1)) := by
      rw [mkDerived_annuity1, if_pos (by omega)]
      unfold pmt
      rw [if_neg (not_lt.mpr (le_trans hr (le_abs_self _)))]
    obtain ⟨h1, h2⟩ := annuity_rate_loan_debt c (mkDerived c) hr hn hA H
      (mkDerived c).n1.toNat le_rfl
    have hzero : (simTrace c (mkDerived c) (mkDerived c).n1.toNat).remainingDebt = 0 := by
      have hz : (((mkDerived c).n1.toNat : ℕ) : ℤ) - (mkDerived c).n1 = 0 := by omega
      rw [h1, hz, zpow_zero, sub_self, mul_zero, zero_div]
    have hcum : (simTrace c (mkDerived c) (mkDerived c).n1.toNat).cumPrincipal
        = (mkDerived c).loanAmount1 := by
      rw [h2, hzero, sub_zero]
    exact ⟨hzero, hcum, by rw [← simTrace_cumPrincipal_eq_sum, hcum]⟩

theorem C6_loan1_amortizes_fully_witness :
    (simTrace (unpack 2025 zeroRateLoanInputs) (mkDerived (unpack 2025 zeroRateLoanInputs))
        (mkDerived (unpack 2025 zeroRateLoanInputs)).n1.toNat).remainingDebt = 0 ∧
    (simTrace (unpack 2025 fullRateLoanInputs) (mkDerived (unpack 2025 fullRateLoanInputs))
        (mkDerived (unpack 2025 fullRateLoanInputs)).n1.toNat).remainingDebt = 0 :=
  ⟨(C6_loan1_amortizes_fully.1 (unpack 2025 zeroRateLoanInputs)
      (by decide!) (by decide!) (by decide!) (by decide!)).2.1,
   (C6_loan1_amortizes_fully.2 (unpack 2025 fullRateLoanInputs)
      (by decide!) (by decide!) (by decide!) (by decide!)).1⟩

theorem C2_unmatched_sale_year_behaves_as_hold_witness :
    (simulateScenario 2025 lateSaleYearInputs).years
        = (simulateScenario 2025 { lateSaleYearInputs with saleMode := some "hold" }).years ∧
    altEndValue 2025 lateSaleYearInputs
        = altEndValue 2025 { lateSaleYearInputs with saleMode := some "hold" } :=
  ⟨((C2_unmatched_sale_year_behaves_as_hold 2025 lateSaleYearInputs).2
      (Or.inr ⟨5, rfl, by decide!⟩)).1,
   ((C2_unmatched_sale_year_behaves_as_hold 2025 lateSaleYearInputs).2
      (Or.inr ⟨5, rfl, by decide!⟩)).2.2.2.1⟩

end Model
